import Mathlib

/-!
Verification of the precise-code-intel query core (reference pager,
dump-visibility engine, metadata-store queries) of the sourcegraph
repository, shallowly embedded in Lean.

Conventions of the embedding:
* Go `int` is `Int`; Go strings are `String`; Go slices are `List`.
* A Go function returning `(..., error)` is embedded in `Except GoAbort`;
  a Go runtime panic (such as a slice bounds violation) is the distinct
  constructor `GoAbort.fault`, because a panic unwinds the stack and is
  never observed by an `if err != nil` check.
* A Go slice expression `s[lo:hi]` is modelled with capacity equal to
  length (the guaranteed-reproducible case, e.g. a freshly decoded slice):
  it faults unless `0 <= lo <= hi <= len(s)`.
* Relational state (tables `lsif_uploads`, `lsif_packages`,
  `lsif_references`) is a record of row lists in table order; a SQL query
  without `ORDER BY` returns the matching rows in table order, a query
  with `ORDER BY` sorts them stably.  The recursive commit-lineage CTE's
  output (rows of `lineage_with_dumps` with their `row_number` `n`) is
  taken as an input relation; the functions below embed the SQL that
  consumes it (`visible_ids` filter, closest-dump selection).
* Bundle-manager calls are HTTP calls to an external service (out of
  scope per the spec); a bundle client is an oracle record of fallible
  functions.  Metadata-store reads are modelled as pure lookups over the
  relational state.
-/

set_option autoImplicit false

deriving instance DecidableEq for Except

namespace SG

/-- Outcome of a failing Go computation: a returned `error` value, or a
runtime panic (which unwinds instead of being returned). -/
inductive GoAbort where
  | goError (msg : String)
  | fault (msg : String)
deriving Repr, DecidableEq

/-- `bundles.Position` (part_005). -/
structure Position where
  Line : Int := 0
  Character : Int := 0
deriving Repr, DecidableEq

/-- `bundles.Range` (part_005): start and end positions. -/
structure SRange where
  Start : Position := {}
  Stop : Position := {}
deriving Repr, DecidableEq

/-- `bundles.Location` (part_005): a bundle-local location tagged with its
source dump id. -/
structure Location where
  DumpID : Int := 0
  Path : String := ""
  Range : SRange := {}
deriving Repr, DecidableEq

/-- `bundles.MonikerData` (part_005). -/
structure MonikerData where
  Kind : String := ""
  Scheme : String := ""
  Identifier : String := ""
  PackageInformationID : String := ""
deriving Repr, DecidableEq

/-- `bundles.PackageInformationData` (part_005). -/
structure PackageInformationData where
  Name : String := ""
  Version : String := ""
deriving Repr, DecidableEq

/-- `db.Dump` (part_007): one row of `lsif_uploads` / `lsif_dumps`.
Timestamp and failure-report columns are omitted: no embedded query
reads them.  Field defaults are the Go zero values. -/
structure Dump where
  ID : Int := 0
  Commit : String := ""
  Root : String := ""
  VisibleAtTip : Bool := false
  State : String := ""
  RepositoryID : Int := 0
  Indexer : String := ""
deriving Repr, DecidableEq

/-- `Cursor` (server/db.go): the phase-tagged reference-pagination token,
one record with conditionally populated fields.  Defaults are the Go zero
values. -/
structure Cursor where
  Phase : String := ""
  DumpID : Int := 0
  Path : String := ""
  Line : Int := 0
  Character : Int := 0
  Monikers : List MonikerData := []
  SkipResults : Int := 0
  Identifier : String := ""
  Scheme : String := ""
  Name : String := ""
  Version : String := ""
  DumpIDs : List Int := []
  TotalDumpsWhenBatching : Int := 0
  SkipDumpsWhenBatching : Int := 0
  SkipDumpsInBatch : Int := 0
  SkipResultsInDump : Int := 0
deriving Repr, DecidableEq

/-- `db.Reference` (part_007): one row of `lsif_references` projected to
(dump id, identifier filter). -/
structure Reference where
  DumpID : Int := 0
  Filter : String := ""
deriving Repr, DecidableEq

/-- `ResolvedLocation` (part_008): a location enriched with its Dump. -/
structure ResolvedLocation where
  Dump : Dump := {}
  Path : String := ""
  Range : SRange := {}
deriving Repr, DecidableEq

/-! ## SQL LIKE

The visibility CTE and the closest-dump query compare roots with the SQL
`LIKE` operator (`x LIKE (root || '%')`).  `likeL pat s` decides whether
string `s` matches pattern `pat`, where `%` matches any sequence and `_`
any single character; all functions are structurally recursive so that
concrete instances evaluate inside `decide`. -/

/-- Does `g` accept some suffix of the list (including the full list and
the empty suffix)?  Used for the `%` wildcard. -/
def anySuffix (g : List Char → Bool) : List Char → Bool
  | [] => g []
  | c :: cs => g (c :: cs) || anySuffix g cs

/-- SQL LIKE matching on character lists: `likeL pat s` is true iff `s`
matches pattern `pat`. -/
def likeL : List Char → List Char → Bool
  | [], s => s.isEmpty
  | '%' :: ps, s => anySuffix (likeL ps) s
  | '_' :: ps, s =>
    match s with
    | [] => false
    | _ :: cs => likeL ps cs
  | c :: ps, s =>
    match s with
    | [] => false
    | c2 :: cs => c == c2 && likeL ps cs

/-- `sqlLike s pat` embeds the SQL expression `s LIKE pat`. -/
def sqlLike (s pat : String) : Bool :=
  likeL pat.toList s.toList

/-- A Go slice expression `s[lo:hi]` (capacity taken equal to length):
faults with a runtime panic when the bounds are invalid. -/
def goSlice {α : Type} (xs : List α) (lo hi : Int) : Except GoAbort (List α) :=
  if 0 ≤ lo ∧ lo ≤ hi ∧ hi ≤ (xs.length : Int) then
    .ok ((xs.drop lo.toNat).take (hi - lo).toNat)
  else
    .error (.fault "slice bounds out of range")

/-- Stable insertion into a sorted list, placing the new element before the
first element it compares `le` to.  Used to embed SQL `ORDER BY` (a stable
deterministic reading of the unspecified tie order). -/
def insertLe {α : Type} (le : α → α → Bool) (x : α) : List α → List α
  | [] => [x]
  | y :: ys => if le x y then x :: y :: ys else y :: insertLe le x ys

/-- Stable sort by `le`; elements of the original list are inserted from the
left, so earlier rows precede later rows at equal keys. -/
def sortLe {α : Type} (le : α → α → Bool) : List α → List α
  | [] => []
  | x :: xs => insertLe le x (sortLe le xs)

/-! ## Visibility engine (db/ctes.go, part_007)

The recursive `lineage`/`limited_lineage` CTE (bounded bidirectional
traversal of `lsif_commits`, capped at 100 rows, each row numbered by
`row_number()`) is the input relation here: `LineageEntry` is a row of
`limited_lineage` projected to the columns the downstream SQL reads, and
`lineageWithDumps` embeds the join producing `lineage_with_dumps`. -/

/-- A row of `limited_lineage`: the visited commit and its row number `n`
(the traversal-depth approximation of graph distance). -/
structure LineageEntry where
  n : Int := 0
  repositoryID : Int := 0
  commit : String := ""
deriving Repr, DecidableEq

/-- A row of the `lineage_with_dumps` CTE (db.go:66): lineage row number
plus the correlated dump's root, indexer and id. -/
structure LineageRow where
  n : Int := 0
  root : String := ""
  indexer : String := ""
  dumpID : Int := 0
deriving Repr, DecidableEq

/-- The `lineage_with_dumps` CTE (db.go:72): join `limited_lineage` to
`lsif_dumps` on (repository, commit). -/
def lineageWithDumps (dumps : List Dump) (lineage : List LineageEntry) : List LineageRow :=
  lineage.flatMap fun a =>
    (dumps.filter fun d => d.RepositoryID == a.repositoryID && d.Commit == a.commit).map
      fun d => { n := a.n, root := d.Root, indexer := d.Indexer, dumpID := d.ID }

/-- The root-overlap disjunction of the `visible_ids` CTE (ctes.go:56):
`t2.root LIKE (t1.root || '%') OR t1.root LIKE (t2.root || '%')`. -/
def rootsOverlap (t1 t2 : LineageRow) : Bool :=
  sqlLike t2.root (t1.root ++ "%") || sqlLike t1.root (t2.root ++ "%")

/-- The `EXISTS` subquery of the `visible_ids` CTE (ctes.go:54): is there a
candidate `t2` at strictly smaller row number, same indexer, overlapping
root? -/
def shadowed (rows : List LineageRow) (t1 : LineageRow) : Bool :=
  rows.any fun t2 =>
    decide (t2.n < t1.n) && t1.indexer == t2.indexer && rootsOverlap t1 t2

/-- The `visible_ids` CTE (ctes.go:48): `SELECT DISTINCT t1.dump_id FROM
lineage_with_dumps t1 WHERE NOT EXISTS (...)`. -/
def visibleIDs (rows : List LineageRow) : List Int :=
  ((rows.filter fun t1 => !shadowed rows t1).map (·.dumpID)).dedup

/-- The id-selection query of `DB.FindClosestDumps` (part_007:325):
`SELECT d.dump_id FROM lineage_with_dumps d WHERE $3 LIKE (d.root || '%')
AND d.dump_id IN (SELECT * FROM visible_ids) ORDER BY d.n`. -/
def findClosestDumpIDs (rows : List LineageRow) (file : String) : List Int :=
  ((sortLe (fun a b => decide (a.n ≤ b.n))
      (rows.filter fun r =>
        sqlLike file (r.root ++ "%") && (visibleIDs rows).contains r.dumpID)).map
    (·.dumpID))

/-- `DB.FindClosestDumps` (part_007:324, also server/db.go:594): materialize
the ordered id list, then refetch the Dump records with `SELECT ... FROM
lsif_uploads u WHERE id IN (...)` — a query with no ORDER BY, returned in
table order. -/
def findClosestDumps (uploads : List Dump) (rows : List LineageRow) (file : String) : List Dump :=
  uploads.filter fun u => (findClosestDumpIDs rows file).contains u.ID

/-! ## Metadata store and bundle access -/

/-- A row of `lsif_packages`: (scheme, name, version, dump id). -/
structure PackageRow where
  Scheme : String := ""
  Name : String := ""
  Version : String := ""
  DumpID : Int := 0
deriving Repr, DecidableEq

/-- A full row of `lsif_references`: package coordinates, referencing dump
and its identifier filter. -/
structure RefRow where
  Scheme : String := ""
  Name : String := ""
  Version : String := ""
  DumpID : Int := 0
  Filter : String := ""
deriving Repr, DecidableEq

/-- The per-dump bundle-manager capability surface (part_004): an external
HTTP service, modelled as an oracle of fallible functions.  `monikerResults`
takes (modelType, scheme, identifier, skip, take). -/
structure BundleClient where
  references : String → Int → Int → Except GoAbort (List Location)
  monikerResults : String → String → String → Option Int → Option Int →
    Except GoAbort (List Location × Int)
  packageInformation : String → String → Except GoAbort PackageInformationData

/-- The server's collaborators: the relational tables in table order, the
lineage CTE output per (repository, commit), and the bundle client per
dump id. -/
structure ServerEnv where
  uploads : List Dump
  packages : List PackageRow
  refRows : List RefRow
  lineage : Int → String → List LineageRow
  bundles : Int → BundleClient

/-- `DB.GetDumpByID` (part_007:209): primary-key lookup on `lsif_uploads`;
`none` plays the role of the `false` found-flag. -/
def getDumpByID (env : ServerEnv) (id : Int) : Option Dump :=
  env.uploads.find? fun u => u.ID == id

/-- `DB.GetDumps` (part_007:269): batched lookup `WHERE id IN (...)`,
building the `dumpsByID` Go map in row order (later rows overwrite). -/
def getDumps (env : ServerEnv) (ids : List Int) : List (Int × Dump) :=
  (env.uploads.filter fun u => ids.contains u.ID).map fun u => (u.ID, u)

/-- Reading a Go `map[int]Dump` built by `getDumps`: the latest insertion
wins, and a missing key yields the zero-value Dump. -/
def mapGetDump (m : List (Int × Dump)) (id : Int) : Dump :=
  ((m.reverse.find? fun p => p.1 == id).map (·.2)).getD {}

/-- The single-row join of `DB.GetPackage` (part_007:135): first row of
`lsif_packages p JOIN lsif_uploads u ON p.dump_id = u.id WHERE p.scheme =
$1 AND p.name = $2 AND p.version = $3 LIMIT 1`. -/
def getPackageRow (env : ServerEnv) (scheme name version : String) : Option Dump :=
  (env.packages.filterMap fun p =>
    if p.Scheme == scheme && p.Name == name && p.Version == version then
      env.uploads.find? fun u => u.ID == p.DumpID
    else none).head?

/-- `DB.GetPackage` (part_007:134, identically server/db.go:666).  NOTE the
found flag: the source's success path ends with `return dump, false, nil`,
so the flag is `false` both when a row is found and when none is. -/
def GetPackage (env : ServerEnv) (scheme name version : String) : Dump × Bool :=
  match getPackageRow env scheme name version with
  | none => ({}, false)
  | some dump => (dump, false)

/-- `DB.GetVisibleIDs` (part_007:15): run the lineage + `visible_ids` CTEs
and select the ids. -/
def GetVisibleIDs (env : ServerEnv) (repositoryID : Int) (commit : String) : List Int :=
  visibleIDs (env.lineage repositoryID commit)

/-- The join of `lsif_references` to `lsif_dumps` used by the cross-repo
reference queries (part_007:35/50): rows for the package restricted to
other repositories' tip-visible dumps. -/
def packageRefJoin (env : ServerEnv) (scheme name version : String) (repositoryID : Int) :
    List (RefRow × Dump) :=
  env.refRows.filterMap fun r =>
    if r.Scheme == scheme && r.Name == name && r.Version == version then
      match env.uploads.find? fun u => u.ID == r.DumpID with
      | some d => if d.RepositoryID != repositoryID && d.VisibleAtTip then some (r, d) else none
      | none => none
    else none

/-- `DB.CountPackageRefs` (part_007:35). -/
def CountPackageRefs (env : ServerEnv) (scheme name version : String) (repositoryID : Int) : Int :=
  ((packageRefJoin env scheme name version repositoryID).length : Int)

/-- `ORDER BY d.repository_id, d.root` on the joined rows. -/
def repoRootLe (a b : RefRow × Dump) : Bool :=
  decide (a.2.RepositoryID < b.2.RepositoryID) ||
    (a.2.RepositoryID == b.2.RepositoryID && !decide (b.2.Root < a.2.Root))

/-- `DB.GetPackageRefs` (part_007:50): the cross-repo candidate page,
sorted by (repository id, root), with LIMIT/OFFSET. -/
def GetPackageRefs (env : ServerEnv) (scheme name version : String)
    (repositoryID limit offset : Int) : List Reference :=
  (((sortLe repoRootLe (packageRefJoin env scheme name version repositoryID)).drop
      offset.toNat).take limit.toNat).map
    fun p => { DumpID := p.2.ID, Filter := p.1.Filter }

/-- `DB.CountSameRepoPackageRefs` (part_007:81): count of reference rows for
the package among the visible dumps.  (The source's SQL spells the
membership test as the syntactically suspicious `r.dumpID = IN(...)`; the
intended visible-set membership is embedded.) -/
def CountSameRepoPackageRefs (env : ServerEnv) (scheme name version : String)
    (visible : List Int) : Int :=
  ((env.refRows.filter fun r =>
    r.Scheme == scheme && r.Name == name && r.Version == version &&
      visible.contains r.DumpID).length : Int)

/-- The join of `DB.GetSameRepoPackageRefs` (part_007:106). -/
def sameRepoRefJoin (env : ServerEnv) (scheme name version : String) (visible : List Int) :
    List (RefRow × Dump) :=
  env.refRows.filterMap fun r =>
    if r.Scheme == scheme && r.Name == name && r.Version == version &&
        visible.contains r.DumpID then
      (env.uploads.find? fun u => u.ID == r.DumpID).map fun d => (r, d)
    else none

/-- `ORDER BY d.root`. -/
def rootLe (a b : RefRow × Dump) : Bool :=
  !decide (b.2.Root < a.2.Root)

/-- `DB.GetSameRepoPackageRefs` (part_007:100): same-repo candidate page
ordered by root, with OFFSET/LIMIT. -/
def GetSameRepoPackageRefs (env : ServerEnv) (scheme name version : String)
    (visible : List Int) (offset limit : Int) : List Reference :=
  (((sortLe rootLe (sameRepoRefJoin env scheme name version visible)).drop
      offset.toNat).take limit.toNat).map
    fun p => { DumpID := p.2.ID, Filter := p.1.Filter }

/-- `decodeCursor` (server/db.go:765): an unimplemented stub that always
fails with `Unimplemented`. -/
def decodeCursor (raw : String) : Except GoAbort Cursor :=
  .error (.goError "Unimplemented")

/-- `encodeCursor` (server/db.go:769): an unimplemented stub that returns
the empty string for every cursor. -/
def encodeCursor (cursor : Cursor) : String :=
  ""

/-! ## Location resolvers (part_008, locations.go) -/

/-- The single-dump shortcut `resolveLocations(dump, locations)`
(part_008:21): attach the one known Dump and prepend its root. -/
def resolveLocations (dump : Dump) (locations : List Location) : List ResolvedLocation :=
  locations.map fun l => { Dump := dump, Path := dump.Root ++ l.Path, Range := l.Range }

/-- The batch variant `Server.resolveLocations` (part_008:34): collect the
unique dump ids, one `GetDumps` call, then attach `dumpsByID[l.DumpID]`
(the zero-value Dump when absent) and prepend its root. -/
def serverResolveLocations (env : ServerEnv) (locations : List Location) : List ResolvedLocation :=
  let ids := (locations.map (·.DumpID)).dedup
  let dumpsByID := getDumps env ids
  locations.map fun l =>
    { Dump := mapGetDump dumpsByID l.DumpID
      Path := (mapGetDump dumpsByID l.DumpID).Root ++ l.Path
      Range := l.Range }

/-- `LocationThingers` (locations.go:3): a location already carrying its
absolute path, tagged with its dump id. -/
structure LocationThingers where
  DumpID : Int := 0
  Path : String := ""
  Range : SRange := {}
deriving Repr, DecidableEq

/-- `LocationThingers2` (locations.go:9): a location enriched with its
Dump record. -/
structure LocationThingers2 where
  Dump : Dump := {}
  Path : String := ""
  Range : SRange := {}
deriving Repr, DecidableEq

/-- `Server.resolveLocations2` (locations.go:35, identically
server.go:842): collect the unique dump ids, one `GetDumps` batch call,
then attach `dumpsByID[l.DumpID]` to every input location in input order;
a missing key reads as the zero-value Dump. -/
def resolveLocations2 (env : ServerEnv) (locations : List LocationThingers) : List LocationThingers2 :=
  let ids := (locations.map (·.DumpID)).dedup
  let dumpsByID := getDumps env ids
  locations.map fun l =>
    { Dump := mapGetDump dumpsByID l.DumpID, Path := l.Path, Range := l.Range }

/-! ## Server plumbing (part_002) -/

/-- `Server.getDumpAndBundleClient` (part_002:35): dump lookup plus its
bundle client; `none` is the not-found case. -/
def getDumpAndBundleClient (env : ServerEnv) (uploadID : Int) : Option (Dump × BundleClient) :=
  (getDumpByID env uploadID).map fun dump => (dump, env.bundles dump.ID)

/-- `Server.lookupPackageInformation` (part_002:153). -/
def lookupPackageInformation (env : ServerEnv) (dumpID : Int) (path : String)
    (moniker : MonikerData) : Except GoAbort (PackageInformationData × Bool) :=
  if moniker.PackageInformationID == "" then
    .ok ({}, false)
  else do
    let pi ← (env.bundles dumpID).packageInformation path moniker.PackageInformationID
    .ok (pi, true)

/-- `Server.lookupMoniker` (part_002:116): package information from the
current dump's bundle, defining dump via `GetPackage`, then
`MonikerResults` on the defining dump's bundle with the defining root
prepended.  (Because `GetPackage` reports `false`, the body below the
found-check is dead in the source.) -/
def lookupMoniker (env : ServerEnv) (dumpID : Int) (path : String) (moniker : MonikerData)
    (model : String) (skip take : Option Int) : Except GoAbort (List Location × Int) :=
  if moniker.PackageInformationID == "" then
    .ok ([], 0)
  else do
    let pid ← (env.bundles dumpID).packageInformation path moniker.PackageInformationID
    let (dump, found) := GetPackage env moniker.Scheme pid.Name pid.Version
    if !found then
      .ok ([], 0)
    else do
      let (locations, count) ←
        (env.bundles dump.ID).monikerResults model moniker.Scheme moniker.Identifier skip take
      .ok (locations.map fun l =>
        { DumpID := l.DumpID, Path := dump.Root ++ l.Path, Range := l.Range }, count)

/-! ## References pager (references.go) -/

/-- `applyBloomFilter` (server.go:1259): a TODO pass-through that accepts
every candidate row and reports all of them as scanned. -/
def applyBloomFilter (refs : List Reference) (identifier : String) (limit : Int) :
    List Reference × Int :=
  (refs, (refs.length : Int))

/-- The gathering loop of `Server.gatherPackageReferences`
(references.go:287): page through candidates until `limit` post-filter
rows are collected or `totalCount` is exhausted, breaking on an empty
page; `newOffset` advances by the scanned count of each page. -/
def gatherLoop (identifier : String) (limit totalCount : Int)
    (pager : Int → Except GoAbort (List Reference))
    (refs : List Reference) (newOffset : Int) : Except GoAbort (List Reference × Int) :=
  if (refs.length : Int) < limit ∧ newOffset < totalCount then
    match pager newOffset with
    | .error e => .error e
    | .ok page =>
      if page.length = 0 then
        .ok (refs, newOffset)
      else
        let fs := applyBloomFilter page identifier (limit - (refs.length : Int))
        gatherLoop identifier limit totalCount pager (refs ++ fs.1) (newOffset + fs.2)
  else
    .ok (refs, newOffset)
termination_by (totalCount - newOffset).toNat
decreasing_by
  simp only [applyBloomFilter]
  omega

/-- `Server.gatherPackageReferences` (references.go:287). -/
def gatherPackageReferences (identifier : String) (offset limit totalCount : Int)
    (pager : Int → Except GoAbort (List Reference)) : Except GoAbort (List Reference × Int) :=
  gatherLoop identifier limit totalCount pager [] offset

/-- `Server.getSameRepoRemotePackageReferences` (references.go:249).
Returns, in the source's order, (refs, totalCount, newOffset). -/
def getSameRepoRemotePackageReferences (env : ServerEnv) (repositoryID : Int)
    (commit scheme name version identifier : String) (limit offset : Int) :
    Except GoAbort (List Reference × Int × Int) := do
  let visible := GetVisibleIDs env repositoryID commit
  let totalCount := CountSameRepoPackageRefs env scheme name version visible
  let (refs, newOffset) ← gatherPackageReferences identifier offset limit totalCount
    fun off => .ok (GetSameRepoPackageRefs env scheme name version visible off limit)
  .ok (refs, totalCount, newOffset)

/-- `Server.getPackageReferences` (references.go:271).  Returns, in the
source's order, (refs, totalCount, newOffset). -/
def getPackageReferences (env : ServerEnv) (repositoryID : Int)
    (scheme name version identifier : String) (limit offset : Int) :
    Except GoAbort (List Reference × Int × Int) := do
  let totalCount := CountPackageRefs env scheme name version repositoryID
  let (refs, newOffset) ← gatherPackageReferences identifier offset limit totalCount
    fun off => .ok (GetPackageRefs env scheme name version repositoryID limit off)
  .ok (refs, totalCount, newOffset)

/-- `Server.performSameDumpReferences` (references.go:163): bundle
`References` plus the full `MonikerResults` of each cursor moniker form
the logical stream; the page is the Go slice
`locations[skipResults : skipResults+limit]` (the source carries a
`TODO - bounds check`), and a next cursor is emitted iff
`skipResults+limit < len(locations)`. -/
def performSameDumpReferences (env : ServerEnv) (limit : Int) (cursor : Cursor) :
    Except GoAbort (List ResolvedLocation × Cursor × Bool) :=
  match getDumpAndBundleClient env cursor.DumpID with
  | none => .ok ([], {}, false)
  | some (dump, bc) => do
    let locations0 ← bc.references cursor.Path cursor.Line cursor.Character
    let locations ← cursor.Monikers.foldlM (fun acc moniker => do
      let rs ← bc.monikerResults "reference" moniker.Scheme moniker.Identifier none none
      pure (acc ++ rs.1)) locations0
    let sliced ← goSlice locations cursor.SkipResults (cursor.SkipResults + limit)
    let resolved := resolveLocations dump sliced
    if cursor.SkipResults + limit < (locations.length : Int) then
      .ok (resolved,
        { Phase := cursor.Phase, DumpID := cursor.DumpID, Path := cursor.Path
          Line := cursor.Line, Character := cursor.Character
          Monikers := cursor.Monikers, SkipResults := cursor.SkipResults + limit }, true)
    else
      .ok (resolved, {}, false)

/-- The moniker loop of `Server.performDefinitionMonikersReference`
(references.go:212): skip non-import monikers; the source calls
`lookupMoniker(dumpID, path, moniker, "reference", &limit,
&cursor.SkipResults)` whose parameters are `(skip, take)` in that order,
so `skip := limit` and `take := cursor.SkipResults` exactly as written. -/
def defMonikersLoop (env : ServerEnv) (limit : Int) (cursor : Cursor) :
    List MonikerData → Except GoAbort (List ResolvedLocation × Cursor × Bool)
  | [] => .ok ([], {}, false)
  | moniker :: rest =>
    if moniker.Kind != "import" then
      defMonikersLoop env limit cursor rest
    else do
      let (locations, count) ← lookupMoniker env cursor.DumpID cursor.Path moniker "reference"
        (some limit) (some cursor.SkipResults)
      if locations.length > 0 then
        let resolved := serverResolveLocations env locations
        if cursor.SkipResults + (locations.length : Int) < count then
          .ok (resolved,
            { Phase := cursor.Phase, DumpID := cursor.DumpID, Path := cursor.Path
              Monikers := cursor.Monikers, SkipResults := cursor.SkipResults + limit }, true)
        else
          .ok (resolved, {}, false)
      else
        defMonikersLoop env limit cursor rest

/-- `Server.performDefinitionMonikersReference` (references.go:211). -/
def performDefinitionMonikersReference (env : ServerEnv) (limit : Int) (cursor : Cursor) :
    Except GoAbort (List ResolvedLocation × Cursor × Bool) :=
  defMonikersLoop env limit cursor cursor.Monikers

/-- The dump-batch loop of `Server.locationsFromRemoteReferences`
(references.go:357): iterate the batch from `SkipDumpsInBatch`, skip the
cursor-origin dump id, skip dumps deleted since batching, and stop at the
first dump yielding a non-empty `MonikerResults` page, emitting one of the
source's three continuation cursors (or the zero cursor with no-next). -/
def remoteRefsLoop (env : ServerEnv) (dumpID : Int) (scheme identifier : String)
    (limit : Int) (cursor : Cursor) :
    Nat → List Int → Except GoAbort (List ResolvedLocation × Cursor × Bool)
  | _, [] => .ok ([], {}, false)
  | i, batchDumpID :: rest =>
    if (i : Int) < cursor.SkipDumpsInBatch then
      remoteRefsLoop env dumpID scheme identifier limit cursor (i + 1) rest
    else if batchDumpID == dumpID then
      remoteRefsLoop env dumpID scheme identifier limit cursor (i + 1) rest
    else
      match getDumpAndBundleClient env batchDumpID with
      | none => remoteRefsLoop env dumpID scheme identifier limit cursor (i + 1) rest
      | some (dump, bc) =>
        match bc.monikerResults "reference" scheme identifier (some limit)
            (some cursor.SkipResultsInDump) with
        | .error e => .error e
        | .ok (results, count) =>
        if results.length > 0 then
          let newResultOffset := cursor.SkipResultsInDump + (results.length : Int)
          let moreDumps := ((i : Int) + 1) < (cursor.DumpIDs.length : Int)
          let resolved := resolveLocations dump results
          if newResultOffset < count then
            .ok (resolved,
              { Phase := cursor.Phase, DumpID := cursor.DumpID
                Identifier := cursor.Identifier, Scheme := cursor.Scheme
                Name := cursor.Name, Version := cursor.Version
                DumpIDs := cursor.DumpIDs
                TotalDumpsWhenBatching := cursor.TotalDumpsWhenBatching
                SkipDumpsWhenBatching := cursor.SkipDumpsWhenBatching
                SkipDumpsInBatch := cursor.SkipDumpsInBatch
                SkipResultsInDump := cursor.SkipResultsInDump + limit }, true)
          else if moreDumps then
            .ok (resolved,
              { Phase := cursor.Phase, DumpID := cursor.DumpID
                Identifier := cursor.Identifier, Scheme := cursor.Scheme
                Name := cursor.Name, Version := cursor.Version
                DumpIDs := cursor.DumpIDs
                TotalDumpsWhenBatching := cursor.TotalDumpsWhenBatching
                SkipDumpsWhenBatching := cursor.SkipDumpsWhenBatching
                SkipDumpsInBatch := (i : Int) + 1
                SkipResultsInDump := 0 }, true)
          else if cursor.SkipDumpsWhenBatching < cursor.TotalDumpsWhenBatching then
            .ok (resolved,
              { Phase := cursor.Phase, DumpID := cursor.DumpID
                Identifier := cursor.Identifier, Scheme := cursor.Scheme
                Name := cursor.Name, Version := cursor.Version
                TotalDumpsWhenBatching := cursor.TotalDumpsWhenBatching
                SkipDumpsWhenBatching := cursor.SkipDumpsWhenBatching
                DumpIDs := []
                SkipDumpsInBatch := 0
                SkipResultsInDump := 0 }, true)
          else
            .ok (resolved, {}, false)
        else
          remoteRefsLoop env dumpID scheme identifier limit cursor (i + 1) rest

/-- `Server.locationsFromRemoteReferences` (references.go:340).  On an
empty `DumpIDs` the batch is (re)filled from `fx`; the source's binding
`packageRefs, newOffset, totalCount, err := fx()` receives a callee tuple
ordered (refs, totalCount, newOffset), so the last two components are
bound crosswise, exactly as embedded here. -/
def locationsFromRemoteReferences (env : ServerEnv) (dumpID : Int)
    (scheme identifier : String) (limit : Int) (cursor : Cursor)
    (fx : Unit → Except GoAbort (List Reference × Int × Int)) :
    Except GoAbort (List ResolvedLocation × Cursor × Bool) :=
  if cursor.DumpIDs.length == 0 then
    match fx () with
    | .error e => .error e
    | .ok (packageRefs, newOffset, totalCount) =>
      let cursor2 : Cursor := { cursor with
        DumpIDs := packageRefs.map (·.DumpID)
        SkipDumpsWhenBatching := newOffset
        TotalDumpsWhenBatching := totalCount }
      remoteRefsLoop env dumpID scheme identifier limit cursor2 0 cursor2.DumpIDs
  else
    remoteRefsLoop env dumpID scheme identifier limit cursor 0 cursor.DumpIDs

/-- `Server.performSameRepositoryRemoteReferences` (references.go:311). -/
def performSameRepositoryRemoteReferences (env : ServerEnv) (repositoryID : Int)
    (commit : String) (remoteDumpLimit limit : Int) (cursor : Cursor) :
    Except GoAbort (List ResolvedLocation × Cursor × Bool) :=
  locationsFromRemoteReferences env cursor.DumpID cursor.Scheme cursor.Identifier limit cursor
    fun _ => getSameRepoRemotePackageReferences env repositoryID commit cursor.Scheme
      cursor.Name cursor.Version cursor.Identifier remoteDumpLimit cursor.SkipDumpsWhenBatching

/-- `Server.performRemoteReferences` (references.go:326). -/
def performRemoteReferences (env : ServerEnv) (repositoryID remoteDumpLimit limit : Int)
    (cursor : Cursor) : Except GoAbort (List ResolvedLocation × Cursor × Bool) :=
  locationsFromRemoteReferences env cursor.DumpID cursor.Scheme cursor.Identifier limit cursor
    fun _ => getPackageReferences env repositoryID cursor.Scheme cursor.Name cursor.Version
      cursor.Identifier remoteDumpLimit cursor.SkipDumpsWhenBatching

/-- `ReferencePageResolver` (references.go:30). -/
structure ReferencePageResolver where
  env : ServerEnv
  repositoryID : Int := 0
  commit : String := ""
  remoteDumpLimit : Int := 0
  limit : Int := 0

/-- `ReferencePageResolver.handleSameDumpCursor` (references.go:73): run
the same-dump phase; when it is exhausted, transition to the
`definition-monikers` cursor (always with a next cursor). -/
def handleSameDumpCursor (s : ReferencePageResolver) (cursor : Cursor) :
    Except GoAbort (List ResolvedLocation × Cursor × Bool) := do
  let (locations, newCursor, hasNewCursor) ← performSameDumpReferences s.env s.limit cursor
  if hasNewCursor then
    .ok (locations, newCursor, true)
  else
    .ok (locations,
      { DumpID := cursor.DumpID, Phase := "definition-monikers", Path := cursor.Path
        Line := cursor.Line, Character := cursor.Character
        Monikers := cursor.Monikers, SkipResults := 0 }, true)

/-- The transition loop of `handleDefinitionMonikersCursor`
(references.go:103): the first moniker with resolvable package
information seeds the `same-repo` cursor. -/
def sameRepoTransition (env : ServerEnv) (cursor : Cursor) :
    List MonikerData → Except GoAbort (Option Cursor)
  | [] => .ok none
  | moniker :: rest => do
    let (packageInformation, found) ←
      lookupPackageInformation env cursor.DumpID cursor.Path moniker
    if found then
      .ok (some
        { DumpID := cursor.DumpID, Phase := "same-repo"
          Scheme := moniker.Scheme, Identifier := moniker.Identifier
          Name := packageInformation.Name, Version := packageInformation.Version
          DumpIDs := [], TotalDumpsWhenBatching := 0, SkipDumpsWhenBatching := 0
          SkipDumpsInBatch := 0, SkipResultsInDump := 0 })
    else
      sameRepoTransition env cursor rest

/-- `ReferencePageResolver.handleDefinitionMonikersCursor`
(references.go:94). -/
def handleDefinitionMonikersCursor (s : ReferencePageResolver) (cursor : Cursor) :
    Except GoAbort (List ResolvedLocation × Cursor × Bool) := do
  let (locations, newCursor, hasNewCursor) ←
    performDefinitionMonikersReference s.env s.limit cursor
  if hasNewCursor then
    .ok (locations, newCursor, true)
  else do
    match ← sameRepoTransition s.env cursor cursor.Monikers with
    | some c => .ok (locations, c, true)
    | none => .ok (locations, {}, false)

/-- `ReferencePageResolver.handleSameRepoCursor` (references.go:129): run
the same-repo phase; when exhausted, transition to `remote-repo`. -/
def handleSameRepoCursor (s : ReferencePageResolver) (cursor : Cursor) :
    Except GoAbort (List ResolvedLocation × Cursor × Bool) := do
  let (locations, newCursor, hasNewCursor) ←
    performSameRepositoryRemoteReferences s.env s.repositoryID s.commit s.remoteDumpLimit
      s.limit cursor
  if hasNewCursor then
    .ok (locations, newCursor, true)
  else
    .ok (locations,
      { DumpID := cursor.DumpID, Phase := "remote-repo"
        Scheme := cursor.Scheme, Identifier := cursor.Identifier
        Name := cursor.Name, Version := cursor.Version
        DumpIDs := [], TotalDumpsWhenBatching := 0, SkipDumpsWhenBatching := 0
        SkipDumpsInBatch := 0, SkipResultsInDump := 0 }, true)

/-- `ReferencePageResolver.handleRemoteRepoCursor` (references.go:154). -/
def handleRemoteRepoCursor (s : ReferencePageResolver) (cursor : Cursor) :
    Except GoAbort (List ResolvedLocation × Cursor × Bool) :=
  performRemoteReferences s.env s.repositoryID s.remoteDumpLimit s.limit cursor

/-- `ReferencePageResolver.dispatchCursorHandler` (references.go:57):
select the phase handler, or fail with `malformed cursor`. -/
def dispatchCursorHandler (s : ReferencePageResolver) (cursor : Cursor) :
    Except GoAbort (List ResolvedLocation × Cursor × Bool) :=
  if cursor.Phase == "same-dump" then handleSameDumpCursor s cursor
  else if cursor.Phase == "definition-monikers" then handleDefinitionMonikersCursor s cursor
  else if cursor.Phase == "same-repo" then handleSameRepoCursor s cursor
  else if cursor.Phase == "remote-repo" then handleRemoteRepoCursor s cursor
  else .error (.goError "malformed cursor")

/-- `ReferencePageResolver.resolvePage` (references.go:38).  The first
dispatch's returned error is dropped on the floor — the source reads
`if err != nil ... return nil, Cursor, false, nil` — while a runtime fault
unwinds past that check; when a next cursor exists and `limit >= 0` a
second dispatch runs eagerly and its error is propagated. -/
def resolvePage (s : ReferencePageResolver) (cursor : Cursor) :
    Except GoAbort (List ResolvedLocation × Cursor × Bool) :=
  match dispatchCursorHandler s cursor with
  | .error (.fault m) => .error (.fault m)
  | .error (.goError _) => .ok ([], {}, false)
  | .ok (locations, newCursor, hasNewCursor) =>
    if hasNewCursor && decide (s.limit ≥ 0) then
      match dispatchCursorHandler s newCursor with
      | .error e => .error e
      | .ok (newLocations, c2, h2) => .ok (locations ++ newLocations, c2, h2)
    else
      .ok (locations, newCursor, hasNewCursor)

/-- `Server.getRefs` (references.go:14): build the page resolver (note the
source does not set `remoteDumpLimit`, leaving the zero value) and resolve
one page. -/
def getRefs (env : ServerEnv) (repositoryID : Int) (commit : String) (limit : Int)
    (cursor : Cursor) : Except GoAbort (List ResolvedLocation × Cursor × Bool) :=
  resolvePage { env := env, repositoryID := repositoryID, commit := commit, limit := limit }
    cursor

/-! ## Concrete fixtures

Small worlds used by the evaluation theorems: a bundle with three local
references in dump 7 (spec scenario S4), a bundle whose transport fails,
and a package index defining a package in dump 9 (spec scenario S2). -/

/-- A bundle client that answers every request with empty data. -/
def bundleEmpty : BundleClient where
  references := fun _ _ _ => .ok []
  monikerResults := fun _ _ _ _ _ => .ok ([], 0)
  packageInformation := fun _ _ => .error (.goError "MalformedBundle")

/-- Shorthand for a single-line range. -/
def mkRange (l a b : Int) : SRange :=
  { Start := { Line := l, Character := a }, Stop := { Line := l, Character := b } }

/-- The dump with id 7, root `svc/` (scenario S4/S1). -/
def dump7 : Dump :=
  { ID := 7, Commit := "c0", Root := "svc/", VisibleAtTip := true, State := "completed"
    RepositoryID := 1, Indexer := "lsif-go" }

def loc1 : Location := { DumpID := 7, Path := "a.go", Range := mkRange 3 5 9 }
def loc2 : Location := { DumpID := 7, Path := "a.go", Range := mkRange 10 0 4 }
def loc3 : Location := { DumpID := 7, Path := "b.go", Range := mkRange 2 1 6 }

/-- Dump 7's bundle: three references at (`a.go`, 3, 5) and nothing else. -/
def bundle7 : BundleClient where
  references := fun path line character =>
    if path == "a.go" && line == 3 && character == 5 then .ok [loc1, loc2, loc3] else .ok []
  monikerResults := fun _ _ _ _ _ => .ok ([], 0)
  packageInformation := fun _ _ => .error (.goError "MalformedBundle")

/-- World for the pagination scenarios: only dump 7 exists. -/
def env1 : ServerEnv where
  uploads := [dump7]
  packages := []
  refRows := []
  lineage := fun _ _ => []
  bundles := fun id => if id == 7 then bundle7 else bundleEmpty

/-- The seed cursor of scenario S4: same-dump phase at (`a.go`, 3, 5) in
dump 7 with no monikers. -/
def seedCursor : Cursor :=
  { Phase := "same-dump", DumpID := 7, Path := "a.go", Line := 3, Character := 5
    Monikers := [], SkipResults := 0 }

/-- Witness for C5 at spec scenario S3: dump 3 (root `a/`, indexer Z, row
1) shadows dump 4 (root `a/sub/`, indexer Z, row 3), while dump 3 itself
stays visible. -/
def rowsS3 : List LineageRow :=
  [{ n := 1, root := "a/", indexer := "Z", dumpID := 3 },
   { n := 3, root := "a/sub/", indexer := "Z", dumpID := 4 }]

/-- The graph distance the spec attributes to a returned dump: the `n` of
its lineage row. -/
def lineageDistance (rows : List LineageRow) (u : Dump) : Int :=
  ((rows.find? fun r => r.dumpID == u.ID).map (·.n)).getD 0

/-- Counterexample world for C6: three visible dumps whose uploads-table
order (2, 1, 3) differs from their lineage order (1, 2, 3), plus a root
containing a SQL wildcard. -/
def dump1c6 : Dump :=
  { ID := 1, Commit := "c1", Root := "a/", VisibleAtTip := true, State := "completed"
    RepositoryID := 1, Indexer := "X" }

def dump2c6 : Dump :=
  { ID := 2, Commit := "c2", Root := "a/", VisibleAtTip := true, State := "completed"
    RepositoryID := 1, Indexer := "Y" }

def dump3c6 : Dump :=
  { ID := 3, Commit := "c3", Root := "a%/", VisibleAtTip := true, State := "completed"
    RepositoryID := 1, Indexer := "Z" }

def uploadsC6 : List Dump := [dump2c6, dump1c6, dump3c6]

def lineageC6 : List LineageEntry :=
  [{ n := 1, repositoryID := 1, commit := "c1" },
   { n := 2, repositoryID := 1, commit := "c2" },
   { n := 3, repositoryID := 1, commit := "c3" }]

def rowsC6 : List LineageRow := lineageWithDumps uploadsC6 lineageC6

/-- A bundle client whose transport is down: every call fails. -/
def bundleDown : BundleClient where
  references := fun _ _ _ => .error (.goError "BundleUnavailable")
  monikerResults := fun _ _ _ _ _ => .error (.goError "BundleUnavailable")
  packageInformation := fun _ _ => .error (.goError "BundleUnavailable")

/-- World for C9: dump 7 exists but its bundle transport fails. -/
def env9 : ServerEnv where
  uploads := [dump7]
  packages := []
  refRows := []
  lineage := fun _ _ => []
  bundles := fun _ => bundleDown

/-- The page resolver of the C9 scenario. -/
def rpr9 : ReferencePageResolver :=
  { env := env9, repositoryID := 1, commit := "c0", limit := 2 }

/-- The defining dump of scenario S2: dump 9 with root `vendor/`. -/
def dump9 : Dump :=
  { ID := 9, Commit := "c9", Root := "vendor/", VisibleAtTip := true, State := "completed"
    RepositoryID := 2, Indexer := "lsif-go" }

/-- The import moniker of scenario S2. -/
def monikerX : MonikerData :=
  { Kind := "import", Scheme := "gomod", Identifier := "X", PackageInformationID := "pi1" }

/-- Dump 7's bundle for C3: resolves `pi1` to package (pkg, v1). -/
def bundlePI : BundleClient where
  references := fun _ _ _ => .ok []
  monikerResults := fun _ _ _ _ _ => .ok ([], 0)
  packageInformation := fun _ pid =>
    if pid == "pi1" then .ok { Name := "pkg", Version := "v1" }
    else .error (.goError "MalformedBundle")

def locX : Location := { DumpID := 9, Path := "lib/x.go", Range := mkRange 10 0 5 }

/-- Dump 9's bundle for C3: one moniker result for X. -/
def bundle9 : BundleClient where
  references := fun _ _ _ => .ok []
  monikerResults := fun _ _ _ _ _ => .ok ([locX], 1)
  packageInformation := fun _ _ => .error (.goError "MalformedBundle")

/-- World for C3: the package index maps (gomod, pkg, v1) to dump 9, whose
bundle holds a result for identifier X. -/
def env3 : ServerEnv where
  uploads := [dump7, dump9]
  packages := [{ Scheme := "gomod", Name := "pkg", Version := "v1", DumpID := 9 }]
  refRows := []
  lineage := fun _ _ => []
  bundles := fun id => if id == 7 then bundlePI else if id == 9 then bundle9 else bundleEmpty

/-- The other same-repo dump of scenario S6. -/
def dump8 : Dump :=
  { ID := 8, Commit := "c8", Root := "lib/", VisibleAtTip := true, State := "completed"
    RepositoryID := 1, Indexer := "lsif-go" }

def loc8 : Location := { DumpID := 8, Path := "y.go", Range := mkRange 4 1 7 }

/-- Dump 8's bundle: one reference row for the queried identifier. -/
def bundle8 : BundleClient where
  references := fun _ _ _ => .ok []
  monikerResults := fun _ _ _ _ _ => .ok ([loc8], 1)
  packageInformation := fun _ _ => .error (.goError "MalformedBundle")

/-- World for the C7 witness: the batch holds the origin dump 7 and dump 8. -/
def env7 : ServerEnv where
  uploads := [dump7, dump8]
  packages := []
  refRows := []
  lineage := fun _ _ => []
  bundles := fun id => if id == 8 then bundle8 else bundleEmpty

/-- A same-repo cursor whose batch includes its own origin dump 7. -/
def cursorC7 : Cursor :=
  { Phase := "same-repo", DumpID := 7, Scheme := "gomod", Identifier := "X"
    Name := "pkg", Version := "v1", DumpIDs := [7, 8] }

/-- World for the C8 counterexample: the store holds no dumps at all. -/
def envC8 : ServerEnv where
  uploads := []
  packages := []
  refRows := []
  lineage := fun _ _ => []
  bundles := fun _ => bundleEmpty

def lt42 : LocationThingers := { DumpID := 42, Path := "svc/a.go", Range := mkRange 3 5 9 }

/-! ## Lemmas about the LIKE matcher -/

theorem anySuffix_of_self {g : List Char → Bool} {s : List Char} (h : g s = true) :
    anySuffix g s = true := by
  cases s with
  | nil => simpa [anySuffix] using h
  | cons c cs => simp [anySuffix, h]

theorem anySuffix_of_suffix {g : List Char → Bool} {s t : List Char}
    (hsuff : t <:+ s) (h : g t = true) : anySuffix g s = true := by
  induction s with
  | nil =>
    rcases List.suffix_nil.mp hsuff with rfl
    simpa [anySuffix] using h
  | cons c cs ih =>
    rcases List.suffix_cons_iff.mp hsuff with rfl | htail
    · exact anySuffix_of_self h
    · have hcs := ih htail
      simp [anySuffix, hcs]

/-- A pattern `p ++ %` matches every string that literally starts with the
pattern's characters (wildcard characters inside `p` match themselves). -/
theorem likeL_append_pct : ∀ (p rest : List Char), likeL (p ++ ['%']) (p ++ rest) = true := by
  intro p
  induction p with
  | nil =>
    intro rest
    have h0 : likeL ([] : List Char) [] = true := by simp [likeL]
    have h1 : anySuffix (likeL []) rest = true := anySuffix_of_suffix List.nil_suffix h0
    simpa [likeL] using h1
  | cons c p ih =>
    intro rest
    by_cases hc : c = '%'
    · subst hc
      simp only [List.cons_append, likeL, if_pos rfl]
      exact anySuffix_of_suffix (List.suffix_cons '%' (p ++ rest)) (ih rest)
    · by_cases hu : c = '_'
      · subst hu
        simp [likeL, ih rest]
      · simp [likeL, hc, hu, ih rest]

/-- `s LIKE (p || '%')` holds whenever `p` is a string prefix of `s`. -/
theorem sqlLike_of_isPrefix {p s : String} (h : p.toList <+: s.toList) :
    sqlLike s (p ++ "%") = true := by
  rcases h with ⟨rest, hrest⟩
  have : (p ++ "%").toList = p.toList ++ ['%'] := by
    simp [String.toList, String.data_append]
  simp only [sqlLike, this, ← hrest]
  exact likeL_append_pct p.toList rest

/-- Conversely, when the pattern stem contains no wildcard characters, a
`LIKE (p || '%')` match is exactly a string-prefix match. -/
theorem isPrefix_of_likeL_pct :
    ∀ (p s : List Char), (∀ c ∈ p, c ≠ '%' ∧ c ≠ '_') →
      likeL (p ++ ['%']) s = true → p <+: s := by
  intro p
  induction p with
  | nil => intro s _ _; exact List.nil_prefix
  | cons c p ih =>
    intro s hw h
    have hc : c ≠ '%' ∧ c ≠ '_' := hw c (List.mem_cons_self c p)
    cases s with
    | nil => simp [likeL, hc.1, hc.2] at h
    | cons c2 cs =>
      have hrw : likeL ((c :: p) ++ ['%']) (c2 :: cs) = (c == c2 && likeL (p ++ ['%']) cs) := by
        rw [List.cons_append, likeL] <;> simp [hc.1, hc.2]
      rw [hrw] at h
      simp only [Bool.and_eq_true, beq_iff_eq] at h
      rcases h with ⟨rfl, h2⟩
      exact List.cons_prefix_cons.mpr
        ⟨rfl, ih cs (fun d hd => hw d (List.mem_cons_of_mem _ hd)) h2⟩

/-! ## C5 — visibility shadowing -/

theorem mem_visibleIDs {rows : List LineageRow} {id : Int} :
    id ∈ visibleIDs rows ↔ ∃ r, r ∈ rows ∧ r.dumpID = id ∧ shadowed rows r = false := by
  simp only [visibleIDs, List.mem_dedup, List.mem_map, List.mem_filter,
    Bool.not_eq_true']
  constructor
  · rintro ⟨r, ⟨hr, hsh⟩, hid⟩
    exact ⟨r, hr, hid, hsh⟩
  · rintro ⟨r, hr, hid, hsh⟩
    exact ⟨r, ⟨hr, hsh⟩, hid⟩

/-- C5: in the `visible_ids` CTE, a candidate dump B is removed whenever a
candidate A with the same indexer and overlapping root (one root a string
prefix of the other) sits at a strictly smaller lineage row number — here
the hypothesis `hRowsB` states that every lineage row carrying B lies
strictly below A's row and carries B's root and indexer — and a candidate
is retained (ties at equal row number never shadow) whenever no
same-indexer overlapping candidate sits strictly above it. -/
theorem c5_visibility_shadowing (rows : List LineageRow) (rA rB : LineageRow)
    (hA : rA ∈ rows) (hInd : rA.indexer = rB.indexer)
    (hOver : rA.root.toList <+: rB.root.toList ∨ rB.root.toList <+: rA.root.toList)
    (hRowsB : ∀ r ∈ rows, r.dumpID = rB.dumpID →
      r.indexer = rB.indexer ∧ r.root = rB.root ∧ rA.n < r.n) :
    rB.dumpID ∉ visibleIDs rows
    ∧ ∀ r ∈ rows,
        (∀ t2 ∈ rows, t2.indexer = r.indexer → rootsOverlap r t2 = true → r.n ≤ t2.n) →
        r.dumpID ∈ visibleIDs rows := by
  constructor
  · intro hmem
    rcases mem_visibleIDs.mp hmem with ⟨r, hr, hid, hnotsh⟩
    rcases hRowsB r hr hid with ⟨hind, hroot, hlt⟩
    have hsh : shadowed rows r = true := by
      refine List.any_eq_true.mpr ⟨rA, hA, ?_⟩
      have h1 : decide (rA.n < r.n) = true := decide_eq_true hlt
      have h2 : (r.indexer == rA.indexer) = true := by
        rw [hind, ← hInd]
        exact beq_self_eq_true _
      have h3 : rootsOverlap r rA = true := by
        unfold rootsOverlap
        rcases hOver with hpre | hpre
        · have := sqlLike_of_isPrefix (p := rA.root) (s := r.root) (by rw [hroot]; exact hpre)
          simp [this]
        · have := sqlLike_of_isPrefix (p := r.root) (s := rA.root) (by rw [hroot]; exact hpre)
          simp [this]
      simp [h1, h2, h3]
    rw [hnotsh] at hsh
    exact Bool.false_ne_true hsh
  · intro r hr hno
    refine mem_visibleIDs.mpr ⟨r, hr, rfl, ?_⟩
    rw [shadowed, List.any_eq_false]
    intro t2 ht2
    intro hcon
    simp only [Bool.and_eq_true, beq_iff_eq, decide_eq_true_eq] at hcon
    rcases hcon with ⟨⟨hn, hind⟩, hover⟩
    exact absurd (hno t2 ht2 hind.symm hover) (by omega)

theorem c5_visibility_shadowing_witness :
    (4 : Int) ∉ visibleIDs rowsS3 ∧ (3 : Int) ∈ visibleIDs rowsS3 := by
  have h := c5_visibility_shadowing rowsS3
    { n := 1, root := "a/", indexer := "Z", dumpID := 3 }
    { n := 3, root := "a/sub/", indexer := "Z", dumpID := 4 }
    (by decide) (by decide) (Or.inl (by decide)) (by decide)
  exact ⟨h.1, h.2 { n := 1, root := "a/", indexer := "Z", dumpID := 3 } (by decide) (by decide)⟩

/-! ## C6 — FindClosestDumps -/

theorem mem_insertLe {α : Type} (le : α → α → Bool) (x a : α) (l : List α) :
    a ∈ insertLe le x l ↔ a = x ∨ a ∈ l := by
  induction l with
  | nil => simp [insertLe]
  | cons y ys ih =>
    by_cases h : le x y = true
    · simp [insertLe, h]
    · simp only [insertLe, if_neg h, List.mem_cons, ih]
      tauto

theorem mem_sortLe {α : Type} (le : α → α → Bool) (a : α) (l : List α) :
    a ∈ sortLe le l ↔ a ∈ l := by
  induction l with
  | nil => simp [sortLe]
  | cons x xs ih => simp [sortLe, mem_insertLe, ih]

/-- C6 counterexample: the id-selection query orders ids 1, 2, 3 by
lineage distance, but the refetch from `lsif_uploads` (no ORDER BY)
returns the Dump records in table order 2, 1, 3 — not distance-ascending —
and the wildcard root `a%/` LIKE-matches `a/f.go` without being a string
prefix of it. -/
theorem c6_counterexample :
    findClosestDumps uploadsC6 rowsC6 "a/f.go" = [dump2c6, dump1c6, dump3c6]
    ∧ ¬ List.Chain' (fun u v => lineageDistance rowsC6 u ≤ lineageDistance rowsC6 v)
        (findClosestDumps uploadsC6 rowsC6 "a/f.go")
    ∧ ¬ (∀ u ∈ findClosestDumps uploadsC6 rowsC6 "a/f.go",
          u.Root.toList <+: "a/f.go".toList) := by
  refine ⟨by decide, ?_, ?_⟩
  · intro hch
    rw [show findClosestDumps uploadsC6 rowsC6 "a/f.go" = [dump2c6, dump1c6, dump3c6]
      by decide] at hch
    have hle := (List.chain'_cons.mp hch).1
    revert hle
    decide
  · intro hall
    have h3 := hall dump3c6 (by
      rw [show findClosestDumps uploadsC6 rowsC6 "a/f.go" = [dump2c6, dump1c6, dump3c6]
        by decide]
      decide)
    revert h3
    decide

/-- C6 (amended): every dump returned by `FindClosestDumps` LIKE-matches
the file as a root-prefix pattern (a literal string prefix whenever the
root has no SQL wildcard characters) and lies in the visible set; the
returned list itself is in uploads-table order, the distance ordering
applying only to the id-selection query. -/
theorem c6_find_closest_dumps_amended (uploads : List Dump) (lineage : List LineageEntry)
    (file : String) (hids : (uploads.map (·.ID)).Nodup) :
    ∀ u ∈ findClosestDumps uploads (lineageWithDumps uploads lineage) file,
      sqlLike file (u.Root ++ "%") = true
      ∧ u.ID ∈ visibleIDs (lineageWithDumps uploads lineage)
      ∧ ((∀ c ∈ u.Root.toList, c ≠ '%' ∧ c ≠ '_') → u.Root.toList <+: file.toList) := by
  intro u hu
  rw [findClosestDumps, List.mem_filter] at hu
  obtain ⟨huup, hcont⟩ := hu
  have hidmem : u.ID ∈ findClosestDumpIDs (lineageWithDumps uploads lineage) file :=
    List.mem_of_elem_eq_true hcont
  rw [findClosestDumpIDs, List.mem_map] at hidmem
  obtain ⟨r, hrmem, hrid⟩ := hidmem
  rw [mem_sortLe, List.mem_filter] at hrmem
  obtain ⟨hrrows, hcond⟩ := hrmem
  rw [Bool.and_eq_true] at hcond
  obtain ⟨hlike, hvis⟩ := hcond
  rw [lineageWithDumps, List.mem_flatMap] at hrrows
  obtain ⟨a, hamem, hr2⟩ := hrrows
  rw [List.mem_map] at hr2
  obtain ⟨d, hdmem, hdr⟩ := hr2
  rw [List.mem_filter] at hdmem
  obtain ⟨hdup, hdcond⟩ := hdmem
  have hroot : r.root = d.Root := by rw [← hdr]
  have hdid : r.dumpID = d.ID := by rw [← hdr]
  have hdu : d = u := by
    refine List.inj_on_of_nodup_map hids hdup huup ?_
    show d.ID = u.ID
    rw [← hdid, hrid]
  have huroot : u.Root = r.root := by rw [← hdu, hroot]
  refine ⟨?_, ?_, ?_⟩
  · rw [huroot]; exact hlike
  · have hmem : r.dumpID ∈ visibleIDs (lineageWithDumps uploads lineage) :=
      List.mem_of_elem_eq_true hvis
    rw [hrid] at hmem
    exact hmem
  · intro hw
    have h1 : likeL (u.Root.toList ++ ['%']) file.toList = true := by
      have h2 : sqlLike file (u.Root ++ "%") = true := by rw [huroot]; exact hlike
      rw [sqlLike] at h2
      have h3 : (u.Root ++ "%").toList = u.Root.toList ++ ['%'] := by
        simp [String.toList, String.data_append]
      rw [h3] at h2
      exact h2
    exact isPrefix_of_likeL_pct u.Root.toList file.toList hw h1

/-- Witness for the amended C6 at the counterexample world. -/
theorem c6_find_closest_dumps_amended_witness :
    (uploadsC6.map (·.ID)).Nodup
    ∧ ∀ u ∈ findClosestDumps uploadsC6 (lineageWithDumps uploadsC6 lineageC6) "a/f.go",
        sqlLike "a/f.go" (u.Root ++ "%") = true
        ∧ u.ID ∈ visibleIDs (lineageWithDumps uploadsC6 lineageC6)
        ∧ ((∀ c ∈ u.Root.toList, c ≠ '%' ∧ c ≠ '_') → u.Root.toList <+: "a/f.go".toList) :=
  ⟨by decide, c6_find_closest_dumps_amended uploadsC6 lineageC6 "a/f.go" (by decide)⟩

/-! ## C2 — same-dump pagination bounds -/

/-- C2: at spec scenario S4 (a 3-element same-dump stream, `limit = 2`) the
second page, `skipResults = 2`, evaluates the Go slice `locations[2:4]` of
a 3-element slice and faults — the source marks the spot `TODO - bounds
check` — instead of returning the clamped final page `[loc3]` that the
spec prescribes (shown in the last conjunct). -/
theorem c2_same_dump_final_page_faults :
    performSameDumpReferences env1 2 { seedCursor with SkipResults := 2 } =
      .error (.fault "slice bounds out of range")
    ∧ bundle7.references "a.go" 3 5 = .ok [loc1, loc2, loc3]
    ∧ ([loc1, loc2, loc3].drop 2).take 2 = [loc3] := by
  refine ⟨by decide, by decide, by decide⟩

/-! ## C1 — page union -/

/-- C1: with the S4 stream (3 same-dump locations, no monikers) the cursor
chain never completes: the very first `getRefs` page at `limit = 2` faults,
because `resolvePage` eagerly dispatches the continuation cursor whose
slice `locations[2:4]` is out of range, and the one-shot exhaustive query
(`limit = 4 > |L|`) faults on `locations[0:4]` as well, so the ordered
concatenation of pages cannot equal it.  The last conjunct shows the first
dispatch alone had produced a correct first page with a continuation
cursor. -/
theorem c1_page_union_chain_faults :
    getRefs env1 1 "c0" 2 seedCursor = .error (.fault "slice bounds out of range")
    ∧ getRefs env1 1 "c0" 4 seedCursor = .error (.fault "slice bounds out of range")
    ∧ dispatchCursorHandler { env := env1, repositoryID := 1, commit := "c0", limit := 2 }
        seedCursor =
        .ok (resolveLocations dump7 [loc1, loc2], { seedCursor with SkipResults := 2 }, true) := by
  refine ⟨by decide, by decide, by decide⟩

/-! ## C9 — error propagation in resolvePage -/

/-- C9: when the dispatched same-dump handler fails with a bundle
transport error, `resolvePage` discards the error — the source's first
dispatch reads `if err != nil ... return nil, Cursor, false, nil` — and
reports success with an empty page and no cursor instead of propagating
it. -/
theorem c9_resolve_page_drops_handler_error :
    dispatchCursorHandler rpr9 seedCursor = .error (.goError "BundleUnavailable")
    ∧ resolvePage rpr9 seedCursor = .ok ([], {}, false) := by
  refine ⟨by decide, by decide⟩

/-! ## C3 — GetPackage found flag -/

/-- C3: a package-index row for (gomod, pkg, v1) exists and joins to dump
9 (first conjunct), yet `GetPackage` reports found = `false` — the
source's success path is `return dump, false, nil` — so `lookupMoniker`
gives up and returns no locations even though the defining dump's bundle
has a result for the identifier (last two conjuncts). -/
theorem c3_get_package_reports_not_found :
    getPackageRow env3 "gomod" "pkg" "v1" = some dump9
    ∧ GetPackage env3 "gomod" "pkg" "v1" = (dump9, false)
    ∧ lookupMoniker env3 7 "a.go" monikerX "definition" none none = .ok ([], 0)
    ∧ bundle9.monikerResults "definition" "gomod" "X" none none = .ok ([locX], 1) := by
  refine ⟨by decide, by decide, by decide, by decide⟩

/-! ## C4 — cursor encoding round-trip -/

/-- C4: the cursor codec is an unimplemented stub pair — `encodeCursor`
returns the empty string and `decodeCursor` always fails with
`Unimplemented` — so `decode(encode C))` is an error for every cursor `C`,
never `C` itself. -/
theorem c4_cursor_roundtrip_fails (c : Cursor) :
    decodeCursor (encodeCursor c) = .error (.goError "Unimplemented")
    ∧ encodeCursor c = "" :=
  ⟨rfl, rfl⟩

/-! ## C7 — origin-dump exclusion in remote phases -/

theorem getDumpAndBundleClient_id {env : ServerEnv} {uploadID : Int} {dump : Dump}
    {bc : BundleClient} (h : getDumpAndBundleClient env uploadID = some (dump, bc)) :
    dump.ID = uploadID := by
  rw [getDumpAndBundleClient] at h
  cases hf : getDumpByID env uploadID with
  | none => rw [hf] at h; simp at h
  | some d =>
    rw [hf] at h
    simp only [Option.map_some', Option.some.injEq, Prod.mk.injEq] at h
    have hp := List.find?_some hf
    rw [← h.1]
    simpa using hp

theorem remoteRefsLoop_excludes_origin (env : ServerEnv) (dumpID : Int)
    (scheme identifier : String) (limit : Int) (cursor : Cursor) :
    ∀ (l : List Int) (i : Nat) (res : List ResolvedLocation) (c : Cursor) (b : Bool),
      remoteRefsLoop env dumpID scheme identifier limit cursor i l = .ok (res, c, b) →
      ∀ loc ∈ res, loc.Dump.ID ≠ dumpID := by
  intro l
  induction l with
  | nil =>
    intro i res c b h loc hloc
    have h0 : remoteRefsLoop env dumpID scheme identifier limit cursor i [] =
        Except.ok ([], ({} : Cursor), false) := rfl
    rw [h0] at h
    simp only [Except.ok.injEq, Prod.mk.injEq] at h
    rw [← h.1] at hloc
    simp at hloc
  | cons batchDumpID rest ih =>
    intro i res c b h loc hloc
    rw [remoteRefsLoop] at h
    split at h
    · exact ih (i + 1) res c b h loc hloc
    · split at h
      · exact ih (i + 1) res c b h loc hloc
      · rename_i h1 h2
        split at h
        · exact ih (i + 1) res c b h loc hloc
        · rename_i p dump bc hg
          split at h
          · simp at h
          · rename_i m results count hm
            split at h
            · rename_i hlen
              dsimp only at h
              have extract : ∀ (x : Cursor) (y : Bool),
                  (Except.ok (resolveLocations dump results, x, y) :
                      Except GoAbort (List ResolvedLocation × Cursor × Bool)) =
                    Except.ok (res, c, b) →
                  res = resolveLocations dump results := by
                intro x y hx
                simp only [Except.ok.injEq, Prod.mk.injEq] at hx
                exact hx.1.symm
              have hres : res = resolveLocations dump results := by
                split at h
                · exact extract _ _ h
                · split at h
                  · exact extract _ _ h
                  · split at h
                    · exact extract _ _ h
                    · exact extract _ _ h
              rw [hres] at hloc
              rw [resolveLocations, List.mem_map] at hloc
              obtain ⟨l0, hl0, hldef⟩ := hloc
              have hdump : loc.Dump = dump := by rw [← hldef]
              have hid : dump.ID = batchDumpID := getDumpAndBundleClient_id hg
              rw [hdump, hid]
              intro hcon
              exact h2 (by simpa using hcon)
            · exact ih (i + 1) res c b h loc hloc

/-- C7: every location returned by `locationsFromRemoteReferences` — the
engine of the `same-repo` and `remote-repo` phases, which receive the
cursor-origin dump id as `dumpID` — carries a Dump different from the
origin: the batch loop skips any batch entry equal to the origin id, for
any batching function `fx`. -/
theorem c7_origin_dump_excluded (env : ServerEnv) (dumpID : Int) (scheme identifier : String)
    (limit : Int) (cursor : Cursor)
    (fx : Unit → Except GoAbort (List Reference × Int × Int))
    (res : List ResolvedLocation) (c : Cursor) (b : Bool)
    (h : locationsFromRemoteReferences env dumpID scheme identifier limit cursor fx =
      .ok (res, c, b)) :
    ∀ loc ∈ res, loc.Dump.ID ≠ dumpID := by
  rw [locationsFromRemoteReferences] at h
  split at h
  · split at h
    · simp at h
    · exact remoteRefsLoop_excludes_origin env dumpID scheme identifier limit _ _ 0 res c b h
  · exact remoteRefsLoop_excludes_origin env dumpID scheme identifier limit _ _ 0 res c b h

theorem c7_origin_dump_excluded_witness :
    locationsFromRemoteReferences env7 7 "gomod" "X" 5 cursorC7 (fun _ => .ok ([], 0, 0)) =
      .ok (resolveLocations dump8 [loc8], {}, false)
    ∧ ∀ loc ∈ resolveLocations dump8 [loc8], loc.Dump.ID ≠ 7 :=
  ⟨by decide, fun loc hloc =>
    c7_origin_dump_excluded env7 7 "gomod" "X" 5 cursorC7 (fun _ => .ok ([], 0, 0))
      (resolveLocations dump8 [loc8]) {} false (by decide) loc hloc⟩

/-! ## C8 — batch location resolver -/

/-- C8 counterexample: dump id 42 is absent from the `GetDumps` batch
result (second conjunct), yet `resolveLocations2` still emits the location
— with the zero-value Dump attached — instead of dropping it: the output
has length 1, not 0. -/
theorem c8_counterexample :
    resolveLocations2 envC8 [lt42] =
      [{ Dump := {}, Path := "svc/a.go", Range := mkRange 3 5 9 }]
    ∧ getDumps envC8 [42] = []
    ∧ (resolveLocations2 envC8 [lt42]).length ≠ 0 := by
  refine ⟨by decide, by decide, by decide⟩

theorem find?_map_pair (l : List Dump) (id : Int) :
    ((l.map fun u => (u.ID, u)).find? fun p => p.1 == id) =
      (l.find? fun u => u.ID == id).map fun u => (u.ID, u) := by
  induction l with
  | nil => simp
  | cons u us ih =>
    by_cases h : (u.ID == id) = true
    · simp [List.find?, h]
    · simp [List.find?, h, ih]

theorem find?_filter_contains (l : List Dump) (ids : List Int) (id : Int)
    (hid : id ∈ ids) :
    ((l.filter fun u => ids.contains u.ID).find? fun u => u.ID == id) =
      l.find? fun u => u.ID == id := by
  induction l with
  | nil => simp
  | cons u us ih =>
    rw [List.filter_cons]
    by_cases hmem : (ids.contains u.ID) = true
    · rw [if_pos hmem]
      by_cases h : (u.ID == id) = true
      · simp only [List.find?_cons, h]
      · have hf : (u.ID == id) = false := by simpa using h
        simp only [List.find?_cons, hf]
        exact ih
    · rw [if_neg hmem, ih]
      by_cases h : (u.ID == id) = true
      · exfalso
        have hu : u.ID = id := by simpa using h
        rw [hu] at hmem
        exact hmem (List.elem_eq_true_of_mem hid)
      · have hf : (u.ID == id) = false := by simpa using h
        simp only [List.find?_cons, hf]

/-- Reading the `dumpsByID` map built by `getDumps` over an id set
containing `id` is the same as a direct last-row lookup in the uploads
table. -/
theorem mapGetDump_getDumps (env : ServerEnv) (ids : List Int) (id : Int)
    (hid : id ∈ ids) :
    mapGetDump (getDumps env ids) id =
      ((env.uploads.reverse.find? fun u => u.ID == id).getD {}) := by
  rw [mapGetDump, getDumps]
  rw [← List.map_reverse, ← List.filter_reverse]
  rw [find?_map_pair, find?_filter_contains _ _ _ hid]
  cases env.uploads.reverse.find? fun u => u.ID == id <;> simp

/-- C8 (amended): `resolveLocations2` preserves input order and
cardinality, and attaches to every input location the Dump of its id in
the batch result — the zero-value Dump when the id is absent (a location
with a deleted dump is emitted with an empty Dump, not dropped). -/
theorem c8_resolve_locations2_amended (env : ServerEnv) (locations : List LocationThingers) :
    resolveLocations2 env locations =
      locations.map (fun l =>
        { Dump := ((env.uploads.reverse.find? fun u => u.ID == l.DumpID).getD {})
          Path := l.Path, Range := l.Range })
    ∧ (resolveLocations2 env locations).length = locations.length := by
  constructor
  · rw [resolveLocations2]
    apply List.map_congr_left
    intro l hl
    have hid : l.DumpID ∈ (locations.map (·.DumpID)).dedup :=
      List.mem_dedup.mpr (List.mem_map_of_mem _ hl)
    rw [mapGetDump_getDumps env _ _ hid]
  · rw [resolveLocations2]
    simp

/-! ## C10 — gatherPackageReferences termination and progress -/

theorem gatherLoop_offset_le (identifier : String) (limit totalCount : Int)
    (pager : Int → Except GoAbort (List Reference)) :
    ∀ (n : Nat) (refs : List Reference) (off : Int), (totalCount - off).toNat ≤ n →
      ∀ (refsOut : List Reference) (offOut : Int),
        gatherLoop identifier limit totalCount pager refs off = .ok (refsOut, offOut) →
        off ≤ offOut := by
  intro n
  induction n with
  | zero =>
    intro refs off hle refsOut offOut h
    rw [gatherLoop] at h
    rw [if_neg (by omega : ¬((refs.length : Int) < limit ∧ off < totalCount))] at h
    simp only [Except.ok.injEq, Prod.mk.injEq] at h
    omega
  | succ n ihn =>
    intro refs off hle refsOut offOut h
    rw [gatherLoop] at h
    by_cases hc : (refs.length : Int) < limit ∧ off < totalCount
    · rw [if_pos hc] at h
      split at h
      · simp at h
      · rename_i page hp
        by_cases hz : page.length = 0
        · rw [if_pos hz] at h
          simp only [Except.ok.injEq, Prod.mk.injEq] at h
          omega
        · rw [if_neg hz] at h
          simp only [applyBloomFilter] at h
          have := ihn (refs ++ page) (off + (page.length : Int)) (by omega) refsOut offOut h
          omega
    · rw [if_neg hc] at h
      simp only [Except.ok.injEq, Prod.mk.injEq] at h
      omega

/-- C10: `gatherPackageReferences` is total (it is a terminating function
of its inputs for every pager); it stops immediately on an empty page even
while `newOffset < totalCount` (first conjunct), and any successful run
returns a `newOffset` at least the input offset, each iteration having
advanced it by the scanned count (second conjunct). -/
theorem c10_gather_package_references (identifier : String) (offset limit totalCount : Int)
    (pager : Int → Except GoAbort (List Reference)) :
    (0 < limit → offset < totalCount → pager offset = .ok [] →
      gatherPackageReferences identifier offset limit totalCount pager = .ok ([], offset))
    ∧ (∀ (refs : List Reference) (newOffset : Int),
        gatherPackageReferences identifier offset limit totalCount pager =
          .ok (refs, newOffset) →
        offset ≤ newOffset) := by
  constructor
  · intro h1 h2 h3
    rw [gatherPackageReferences, gatherLoop]
    rw [if_pos (show ((List.length ([] : List Reference) : Int) < limit ∧ offset < totalCount)
      by constructor <;> [simpa using h1; exact h2])]
    rw [h3]
    simp
  · intro refs newOffset h
    exact gatherLoop_offset_le identifier limit totalCount pager
      (totalCount - offset).toNat [] offset le_rfl refs newOffset h

/-- Witness for C10: a pager that immediately returns an empty page. -/
theorem c10_gather_package_references_witness :
    gatherPackageReferences "X" 0 5 10 (fun _ => .ok []) = .ok ([], 0)
    ∧ (0 : Int) ≤ 0 := by
  have h := (c10_gather_package_references "X" 0 5 10 (fun _ => .ok [])).1
    (by norm_num) (by norm_num) rfl
  exact ⟨h, (c10_gather_package_references "X" 0 5 10 (fun _ => .ok [])).2 [] 0 h⟩

end SG
